import Mathlib

/-!
Verification development for the data-analyzer pipeline
(`data_analyer_main.py`): a loader/sampler (`check_file_type`), a
three-request model analyzer (`explain_file`), a PDF reporter
(`generate_pdf`), the orchestrating `data_analyzer`, and the command-line
entry point.

Modelling conventions (shallow embedding):

* Text is modelled as `List Char` (`Chars`); `str` injects Lean string
  literals.
* The file system is an association list from path to file data.  A write
  prepends, and lookup returns the most recent entry, which models
  overwriting.
* The hosted generative model is an oracle `Nat → Option Chars`: the k-th
  `generate_content` call of a run either returns a text or raises
  (`none`).
* The randomness of `DataFrame.sample` is a `Sampler` parameter; the
  pandas behaviour assumed of it (a sample of `n` rows is `n` rows drawn
  from the frame) is the predicate `SamplerOK`, and `takeSampler` is a
  concrete instance.
* float64 values are modelled as exact hundredths (`Int`); the only
  operation the program applies to them is the fixed two-decimal text
  rendering, which is injectable (`Int → Option Chars`, `none` modelling a
  raising formatter) so that the best-effort `try/except` around the
  formatting loop can be exercised.  `format_two_dec` is the concrete
  renderer.
* Observable side effects (model calls, sleeps, prints, the PDF write)
  are collected in an event trace.
-/

set_option maxRecDepth 100000

deriving instance DecidableEq for Except

abbrev Chars := List Char

def str (s : String) : Chars := s.data

/-- Errors raised by the program (Python exception classes). -/
inductive PyError
  | fileNotFoundError (msg : Chars)
  | valueError (msg : Chars)
  | attributeError (msg : Chars)
  | exceptionErr (msg : Chars)
  | renderError
deriving DecidableEq

/-- Observable events of a run. -/
inductive Event
  | modelCall
  | sleepEv (seconds : Nat)
  | printEv (msg : Chars)
  | pdfWrite (name : Chars)
deriving DecidableEq

/-- pandas dtypes, as far as the program inspects them
(`select_dtypes(include='float64')`). -/
inductive DType
  | float64
  | otherDType
deriving DecidableEq

/-- A cell of a dataframe.  `floatVal h` is a float64 value of exactly
`h` hundredths. -/
inductive Cell
  | missing
  | floatVal (hundredths : Int)
  | intVal (z : Int)
  | strVal (s : Chars)
deriving DecidableEq

/-- An in-memory table: column names, dtypes and rows (row-major). -/
structure DataFrame where
  header : List Chars
  dtypes : List DType
  rows : List (List Cell)
deriving DecidableEq

/-- A section of a markdown PDF (`Section(text_md, toc=False)`). -/
structure Sect where
  text : Chars
  toc : Bool
deriving DecidableEq

/-- A rendered PDF document (`MarkdownPdf(toc_level=2)` with title
metadata). -/
structure PdfDoc where
  toc_level : Nat
  sections : List Sect
  title : Chars
deriving DecidableEq

/-- A file on disk: either a tabular data file (stored as the table its
format reader yields) or a rendered PDF. -/
inductive FileData
  | table (df : DataFrame)
  | pdfFile (p : PdfDoc)
deriving DecidableEq

/-- The file system: newest entries first. -/
abbrev FS := List (Chars × FileData)

def fsLookup : FS → Chars → Option FileData
  | [], _ => none
  | (k, v) :: rest, n => if k = n then some v else fsLookup rest n

def fsWrite (fs : FS) (name : Chars) (fd : FileData) : FS :=
  (name, fd) :: fs

/-- `str.endswith` on file names. -/
def endswith (s suf : Chars) : Bool := decide (suf <:+ s)

def supported_exts : List Chars :=
  [ str ".csv", str ".parquet", str ".avro", str ".json"]

/-- The fixed intermediate path written by the loader. -/
def intermediate_path : Chars := str "file_to_analyze.csv"

/-- Positional access into a list (`Series`/row indexing). -/
def nth {α : Type} : List α → Nat → Option α
  | [], _ => none
  | a :: _, 0 => some a
  | _ :: l, n + 1 => nth l n

/-- Elementwise effectful map (`Series.apply` building a new column,
`none` modelling a raised exception). -/
def mapOption {α β : Type} (f : α → Option β) : List α → Option (List β)
  | [] => some []
  | a :: as =>
    match f a, mapOption f as with
    | some b, some bs => some (b :: bs)
    | _, _ => none

def Cell.isMissing : Cell → Bool
  | Cell.missing => true
  | _ => false

/-- `df.dropna()`: discard every row containing a missing value. -/
def dropna (rows : List (List Cell)) : List (List Cell) :=
  rows.filter (fun r => !(r.any Cell.isMissing))

/-- Apply the two-decimal formatter to one cell of a float64 column
(`lambda x: "{:.2f}".format(x)`). -/
def fmtCell (fmt : Int → Option Chars) : Cell → Option Cell
  | Cell.floatVal h => (fmt h).map Cell.strVal
  | c => some c

/-- `df[col] = df[col].apply(...)` for column `i`: build the new column;
if any element raises, the whole assignment raises and the frame is
untouched. -/
def formatColumn (fmt : Int → Option Chars) (i : Nat)
    (rows : List (List Cell)) : Option (List (List Cell)) :=
  mapOption
    (fun r =>
      match nth r i with
      | some c => (fmtCell fmt c).map (fun c2 => r.set i c2)
      | none => some r)
    rows

/-- The `for col in df.select_dtypes(include='float64').columns` loop:
process float64 columns left to right; on the first raising column stop
(the exception escapes the loop), keeping the columns already assigned.
Returns the rows and `some i` when the loop raised at column `i`. -/
def format_go (fmt : Int → Option Chars) :
    List DType → Nat → List (List Cell) → List (List Cell) × Option Nat
  | [], _, rows => (rows, none)
  | DType.float64 :: rest, i, rows =>
    (match formatColumn fmt i rows with
     | some rows2 => format_go fmt rest (i + 1) rows2
     | none => (rows, some i))
  | DType.otherDType :: rest, i, rows => format_go fmt rest (i + 1) rows

/-- The `try/except` around the formatting loop: on failure print
`Cannot format float values.` and continue. -/
def format_floats (fmt : Int → Option Chars) (dtypes : List DType)
    (rows : List (List Cell)) : List (List Cell) × List Event :=
  match format_go fmt dtypes 0 rows with
  | (rows2, none) => (rows2, [])
  | (rows2, some _) => (rows2, [Event.printEv (str "Cannot format float values.")])

/-- Concrete fixed two-decimal rendering of a float64 value given as
exact hundredths. -/
def format_two_dec (h : Int) : Chars :=
  let n := h.natAbs
  let fracStr := (if n % 100 < 10 then "0" else "") ++ toString (n % 100)
  str ((if h < 0 then "-" else "") ++ toString (n / 100) ++ "." ++ fracStr)

/-- The randomness of `DataFrame.sample`. -/
abbrev Sampler := Nat → List (List Cell) → List (List Cell)

/-- What pandas guarantees of `sample(n)` when `n` does not exceed the
population: `n` rows, each drawn from the frame. -/
def SamplerOK (sampler : Sampler) : Prop :=
  ∀ n rows, n ≤ rows.length →
    (sampler n rows).length = n ∧ ∀ r ∈ sampler n rows, r ∈ rows

/-- A concrete well-behaved sampler. -/
def takeSampler : Sampler := fun n rows => rows.take n

/-- `df.sample(n)`: raises `ValueError` when `n` exceeds the number of
rows. -/
def sample_rows (sampler : Sampler) (n : Nat) (rows : List (List Cell)) :
    Except PyError (List (List Cell)) :=
  if n ≤ rows.length then Except.ok (sampler n rows)
  else Except.error (PyError.valueError
    (str "Cannot take a larger sample than population when replace is False"))

/-- Dispatch on the file extension and run the matching format reader
(`pd.read_csv` / `read_parquet` / `read_avro` / `read_json`), treated as
black boxes that yield the stored table. -/
def readTable : FileData → Except PyError DataFrame
  | FileData.table df => Except.ok df
  | FileData.pdfFile _ => Except.error (PyError.valueError (str "could not parse file"))

def read_by_ext (fd : FileData) (file_name : Chars) : Except PyError DataFrame :=
  if endswith file_name (str ".csv") then readTable fd
  else if endswith file_name (str ".parquet") then readTable fd
  else if endswith file_name (str ".avro") then readTable fd
  else if endswith file_name (str ".json") then readTable fd
  else Except.error (PyError.valueError
    (str "File type " ++ file_name ++ str " not supported"))

/-- `check_file_type`: existence check, extension dispatch, `dropna`,
best-effort float formatting, `sample(250)`, and the write of the
intermediate artifact `file_to_analyze.csv` (comma separated, header
included, no index column).  On any raise the file system is returned
unchanged. -/
def check_file_type (sampler : Sampler) (fmt : Int → Option Chars)
    (fs : FS) (file_name : Chars) : Except PyError Unit × FS × List Event :=
  match fsLookup fs file_name with
  | none =>
    (Except.error (PyError.fileNotFoundError
      (str "File " ++ file_name ++ str " not found")), fs, [])
  | some fd =>
    match read_by_ext fd file_name with
    | Except.error e => (Except.error e, fs, [])
    | Except.ok df =>
      let rows1 := dropna df.rows
      let fmtres := format_floats fmt df.dtypes rows1
      match sample_rows sampler 250 fmtres.1 with
      | Except.error e => (Except.error e, fs, fmtres.2)
      | Except.ok srows =>
        (Except.ok (),
         fsWrite fs intermediate_path
           (FileData.table (DataFrame.mk df.header df.dtypes srows)),
         fmtres.2)

/-- `generate_pdf`: one section with `toc=False`, `toc_level=2`, title
`Analysis of {file_name}`, output name `data-analysis-{uuid4}.pdf`.
`render_fail` injects a raising `pdf.save`; the raise escapes before the
file is written. -/
def generate_pdf (render_fail : Bool) (id4 : Chars) (fs : FS)
    (file_name text_md : Chars) : Except PyError Chars × FS × List Event :=
  let pdf : PdfDoc :=
    { toc_level := 2
      sections := [Sect.mk text_md false]
      title := str "Analysis of " ++ file_name }
  let file_pdf := str "data-analysis-" ++ id4 ++ str ".pdf"
  if render_fail then (Except.error PyError.renderError, fs, [])
  else (Except.ok file_pdf, fsWrite fs file_pdf (FileData.pdfFile pdf),
    [Event.pdfWrite file_pdf])

/-- Python `str.replace("CSV", "")`: one left-to-right pass of
non-overlapping removal of the literal, case-sensitive substring. -/
def removeCSV : Chars → Chars
  | 'C' :: 'S' :: 'V' :: rest => removeCSV rest
  | c :: rest => c :: removeCSV rest
  | [] => []

def retry_msg : Chars :=
  str "Error: The model is not working properly. Retrying the connection..."

def model_fail_msg : Chars := str "The model is not working properly. Try again later."

def gen_viz_msg : Chars :=
  str "Generating data visualization techniques for data analysis of this file..."

def gen_opt_msg : Chars := str "Generating data optimization report in pandas..."

def warn_part_msg : Chars :=
  str "Error: The model is not working properly. A part of the report could not be created."

def warn_missing_viz : Chars :=
  str "Missing part: Data visualization techniques for data analysis of this file."

def warn_missing_opt : Chars :=
  str "Missing part: Optimize missing data analysis performance in pandas."

/-- The `while response_try != 0` loop around the mandatory first model
request: `k` is the index of the next oracle call, the `Nat` argument the
remaining `response_try` budget.  Each failure prints and sleeps 5
seconds.  Returns the response (if any), the number of calls made and the
events. -/
def try_request (oracle : Nat → Option Chars) :
    Nat → Nat → Option Chars × Nat × List Event
  | _, 0 => (none, 0, [])
  | k, n + 1 =>
    match oracle k with
    | some t => (some t, 1, [Event.modelCall])
    | none =>
      let r := try_request oracle (k + 1) n
      (r.1, r.2.1 + 1,
        Event.modelCall :: Event.printEv retry_msg :: Event.sleepEv 5 :: r.2.2)

/-- The header block assembled before the first response text. -/
def report_header (actual_date file_name_formatted : Chars) : Chars :=
  str "<div style=\"text-align: right\"> " ++ actual_date ++ str " </div><br>"
    ++ str "<div style=\"font-style: italic\"> " ++ file_name_formatted
    ++ str " </div>\n\n" ++ str "__________" ++ str "\n\n"

/-- `explain_file`: read the intermediate artifact, issue the mandatory
request with up to 3 attempts (fatal on exhaustion), then the two
optional requests once each (omitting their sections on failure), and
assemble the report text, stripping the literal `CSV` from every
response. -/
def explain_file (oracle : Nat → Option Chars) (actual_date : Chars)
    (fs : FS) (file_name google_api_key : Chars) :
    Except PyError Chars × List Event :=
  match fsLookup fs intermediate_path with
  | none =>
    (Except.error (PyError.fileNotFoundError intermediate_path), [])
  | some _ =>
    match try_request oracle 0 3 with
    | (none, _, evs1) => (Except.error (PyError.exceptionErr model_fail_msg), evs1)
    | (some t1, used, evs1) =>
      let file_name_formatted := file_name.takeWhile (fun c => c != '/')
      let text0 := report_header actual_date file_name_formatted
        ++ str " " ++ removeCSV t1
      let step2 :=
        match oracle used with
        | some t2 =>
          (text0 ++ str "\n" ++ removeCSV t2,
            [Event.printEv gen_viz_msg, Event.modelCall])
        | none =>
          (text0,
            [Event.printEv gen_viz_msg, Event.modelCall,
             Event.printEv warn_part_msg, Event.printEv warn_missing_viz])
      let step3 :=
        match oracle (used + 1) with
        | some t3 =>
          (step2.1 ++ str "\n" ++ removeCSV t3,
            [Event.printEv gen_opt_msg, Event.modelCall])
        | none =>
          (step2.1,
            [Event.printEv gen_opt_msg, Event.modelCall,
             Event.printEv warn_part_msg, Event.printEv warn_missing_opt])
      (Except.ok step3.1, evs1 ++ step2.2 ++ step3.2)

/-- `data_analyzer`: loader, analyzer, reporter in strict sequence, with
the progress prints of the source.  Any raise propagates, carrying the
file system as written so far. -/
def data_analyzer (sampler : Sampler) (fmt : Int → Option Chars)
    (oracle : Nat → Option Chars) (render_fail : Bool)
    (id4 actual_date : Chars) (fs : FS)
    (file_name google_api_key : Chars) : Except PyError Unit × FS × List Event :=
  let p1 := Event.printEv (str "Analyzing the format of the file...")
  match check_file_type sampler fmt fs file_name with
  | (Except.error e, fs1, evsA) => (Except.error e, fs1, p1 :: evsA)
  | (Except.ok _, fs1, evsA) =>
    let p2 := Event.printEv (str "File type analyzed successfully.")
    let p3 := Event.printEv
      (str "Analyzing the data of the file. This may take a few minutes...")
    match explain_file oracle actual_date fs1 file_name google_api_key with
    | (Except.error e, evsB) =>
      (Except.error e, fs1, p1 :: evsA ++ p2 :: p3 :: evsB)
    | (Except.ok text_md, evsB) =>
      let p4 := Event.printEv (str "File data analyzed successfully.")
      let p5 := Event.printEv (str "Generating the report...")
      match generate_pdf render_fail id4 fs1 file_name text_md with
      | (Except.error e, fs2, evsC) =>
        (Except.error e, fs2, p1 :: evsA ++ p2 :: p3 :: evsB ++ p4 :: p5 :: evsC)
      | (Except.ok file_report, fs2, evsC) =>
        (Except.ok (), fs2,
          p1 :: evsA ++ p2 :: p3 :: evsB ++ p4 :: p5 :: evsC
            ++ [Event.printEv (str "Report generated successfully."),
                Event.printEv (str "Report " ++ file_report
                  ++ str " saved in the current directory.")])

/-- The argparse namespace built from the two declared flags
`--file_name` and `--api_key`. -/
structure Args where
  file_name : Chars
  api_key : Chars

/-- Python attribute access on the namespace: only the two declared
attributes exist; anything else raises `AttributeError`. -/
def ns_getattr (args : Args) (attr : Chars) : Except PyError Chars :=
  if attr = str "file_name" then Except.ok args.file_name
  else if attr = str "api_key" then Except.ok args.api_key
  else Except.error (PyError.attributeError
    (str "Namespace object has no attribute " ++ attr))

/-- The `__main__` block: parse the two flags, then evaluate
`data_analyzer(args.file_name, args.google_api_key)` — note the source
reads the undeclared attribute `google_api_key`. -/
def main_entry (sampler : Sampler) (fmt : Int → Option Chars)
    (oracle : Nat → Option Chars) (render_fail : Bool)
    (id4 actual_date : Chars) (fs : FS)
    (file_name_arg api_key_arg : Chars) : Except PyError Unit × FS × List Event :=
  let args : Args := { file_name := file_name_arg, api_key := api_key_arg }
  match ns_getattr args (str "file_name") with
  | Except.error e => (Except.error e, fs, [])
  | Except.ok fn =>
    match ns_getattr args (str "google_api_key") with
    | Except.error e => (Except.error e, fs, [])
    | Except.ok key =>
      data_analyzer sampler fmt oracle render_fail id4 actual_date fs fn key

/-- A row free of missing values. -/
def RowClean (r : List Cell) : Prop := ∀ c ∈ r, c ≠ Cell.missing

/-- The file name carries one of the four supported extensions. -/
def SupportedName (file_name : Chars) : Prop :=
  endswith file_name (str ".csv") = true
    ∨ endswith file_name (str ".parquet") = true
    ∨ endswith file_name (str ".avro") = true
    ∨ endswith file_name (str ".json") = true

/-- Relation between an input row and its state after the formatting
loop has processed exactly the columns with index below `stop` (window
starting at `i`): float64 cells of processed columns carry the formatter
output, every other cell is untouched. -/
def windowRel (fmt : Int → Option Chars) (ds : List DType) (i stop : Nat)
    (rin rout : List Cell) : Prop :=
  ∀ j : Nat,
    if i ≤ j ∧ j < stop ∧ nth ds (j - i) = some DType.float64
    then nth rout j = (nth rin j).bind (fmtCell fmt)
    else nth rout j = nth rin j

/-- The pandas typing discipline of a loaded frame: rows are as wide as
the dtype list and every cell of a float64 column is a float value or
missing. -/
def WellTyped (df : DataFrame) : Prop :=
  ∀ r ∈ df.rows, r.length = df.dtypes.length ∧
    ∀ j : Nat, nth df.dtypes j = some DType.float64 →
      nth r j = some Cell.missing ∨ ∃ h : Int, nth r j = some (Cell.floatVal h)

/-- The text of a successful analyzer result (empty on error). -/
def okText (res : Except PyError Chars × List Event) : Chars :=
  match res.1 with
  | Except.ok t => t
  | Except.error _ => []

/-- The output file name produced by the reporter. -/
def pdf_name (id4 : Chars) : Chars := str "data-analysis-" ++ id4 ++ str ".pdf"

/-! ### Concrete fixtures used to instantiate the theorems -/

/-- A total formatter: the two-decimal rendering never raises. -/
def fmtW : Int → Option Chars := fun h => some (format_two_dec h)

/-- A formatter raising exactly on the value 9.99. -/
def fmtFail999 : Int → Option Chars :=
  fun h => if h = 999 then none else some (format_two_dec h)

/-- A model that always raises. -/
def oracleFail : Nat → Option Chars := fun _ => none

/-- A model that always answers. -/
def oracleHello : Nat → Option Chars := fun _ => some (str "hello")

/-- A model answering only the first call. -/
def oracleFirstOnly : Nat → Option Chars :=
  fun k => if k = 0 then some (str "hello") else none

/-- A model whose first answer re-joins into the removed token:
`CCSVSV` minus its `CSV` occurrence is `CSV` again. -/
def oracleCex : Nat → Option Chars :=
  fun k => if k = 0 then some (str "CCSVSV") else none

/-- A 250-row frame with no missing values and no float columns. -/
def dfW : DataFrame :=
  DataFrame.mk [ str "a"] [DType.otherDType] (List.replicate 250 [Cell.intVal 1])

def fsW : FS := [(str "data.csv", FileData.table dfW)]

def dateW : Chars := str "2024-05-01 - 10:00:00"

def keyW : Chars := str "APIKEY"

/-- A file system already holding the intermediate artifact. -/
def fsArt : FS := [(intermediate_path, FileData.table dfW)]

/-- An empty frame: fewer than 250 rows remain after `dropna`. -/
def dfEmpty : DataFrame := DataFrame.mk [] [] []

def fsSmall : FS :=
  [(str "d.csv", FileData.table dfEmpty),
   (intermediate_path, FileData.table dfW)]

/-- A file whose name carries an uppercase variant of a supported
extension. -/
def fsUpper : FS := [(str "data.CSV", FileData.table dfW)]

/-- A one-row frame with two float columns, the second holding the value
the failing formatter raises on. -/
def dtypesC7 : List DType := [DType.float64, DType.float64]

def rowsC7 : List (List Cell) := [[Cell.floatVal 100, Cell.floatVal 999]]

/-- Recognizer for the reporter's write event. -/
def is_pdf_write : Event → Bool
  | Event.pdfWrite _ => true
  | _ => false

/-- A file with an extension outside the supported set. -/
def fsXlsx : FS := [(str "data.xlsx", FileData.table dfW)]

/-- The file system produced by a successful loader run on `fsW`:
sampling 250 of the 250 identical rows with `takeSampler` reproduces
`dfW`. -/
def fs1W : FS := fsWrite fsW intermediate_path (FileData.table dfW)

/-- The literal token removed from every model response. -/
def csvTok : Chars := str "CSV"

/-- `s` does not contain the literal substring `CSV`. -/
def noCSV (s : Chars) : Prop := ¬ csvTok <:+: s

instance (s : Chars) : Decidable (noCSV s) := by
  unfold noCSV; infer_instance

/-! ### Generic list lemmas -/

theorem nth_set_eq {α : Type} (l : List α) (i : Nat) (a : α) :
    nth (l.set i a) i = (nth l i).map (fun _ => a) := by
  induction l generalizing i with
  | nil => simp [nth]
  | cons b l ih =>
    cases i with
    | zero => simp [nth]
    | succ n => simpa [nth] using ih n

theorem nth_set_ne {α : Type} (l : List α) (i j : Nat) (a : α) (h : i ≠ j) :
    nth (l.set i a) j = nth l j := by
  induction l generalizing i j with
  | nil => simp [nth]
  | cons b l ih =>
    cases i with
    | zero =>
      cases j with
      | zero => exact absurd rfl h
      | succ m => simp [nth]
    | succ n =>
      cases j with
      | zero => simp [nth]
      | succ m => simpa [nth] using ih n m (by omega)

theorem length_set_eq {α : Type} (l : List α) (i : Nat) (a : α) :
    (l.set i a).length = l.length := by
  simp

theorem mem_of_mem_set {α : Type} {l : List α} {i : Nat} {a b : α}
    (h : b ∈ l.set i a) : b ∈ l ∨ b = a := by
  induction l generalizing i with
  | nil => simp at h
  | cons x l ih =>
    cases i with
    | zero =>
      rcases List.mem_cons.mp h with h1 | h1
      · exact Or.inr h1
      · exact Or.inl (List.mem_cons_of_mem _ h1)
    | succ n =>
      rcases List.mem_cons.mp h with h1 | h1
      · exact Or.inl (h1 ▸ List.mem_cons_self _ _)
      · rcases ih h1 with h2 | h2
        · exact Or.inl (List.mem_cons_of_mem _ h2)
        · exact Or.inr h2

theorem mapOption_forall2 {α β : Type} (f : α → Option β) :
    ∀ {l : List α} {l2 : List β}, mapOption f l = some l2 →
      List.Forall₂ (fun a b => f a = some b) l l2 := by
  intro l
  induction l with
  | nil =>
    intro l2 h
    simp [mapOption] at h
    subst h
    exact List.Forall₂.nil
  | cons a as ih =>
    intro l2 h
    unfold mapOption at h
    cases hfa : f a with
    | none => rw [hfa] at h; simp at h
    | some b =>
      rw [hfa] at h
      cases hrest : mapOption f as with
      | none => rw [hrest] at h; simp at h
      | some bs =>
        rw [hrest] at h
        simp at h
        subst h
        exact List.Forall₂.cons hfa (ih hrest)

theorem mapOption_length {α β : Type} (f : α → Option β) {l : List α}
    {l2 : List β} (h : mapOption f l = some l2) : l2.length = l.length :=
  (List.Forall₂.length_eq (mapOption_forall2 f h)).symm

theorem forall2_trans {α β γ : Type}
    {R : α → β → Prop} {S : β → γ → Prop} {T : α → γ → Prop}
    (hRS : ∀ a b c, R a b → S b c → T a c) :
    ∀ {l1 : List α} {l2 : List β} {l3 : List γ},
      List.Forall₂ R l1 l2 → List.Forall₂ S l2 l3 → List.Forall₂ T l1 l3 := by
  intro l1
  induction l1 with
  | nil =>
    intro l2 l3 h12 h23
    cases h12
    cases h23
    exact List.Forall₂.nil
  | cons a as ih =>
    intro l2 l3 h12 h23
    cases h12 with
    | cons hab h12' =>
      cases h23 with
      | cons hbc h23' =>
        exact List.Forall₂.cons (hRS _ _ _ hab hbc) (ih h12' h23')

/-! ### Substring boundary lemmas -/

theorem prefix_append_cons {p x y : Chars} {c : Char} (hc : c ∉ p)
    (h : p <+: x ++ c :: y) : p <+: x := by
  induction p generalizing x with
  | nil => exact List.nil_prefix
  | cons b p ih =>
    cases x with
    | nil =>
      rw [List.nil_append, List.cons_prefix_cons] at h
      exact absurd (h.1 ▸ List.mem_cons_self b p) hc
    | cons a x' =>
      rw [List.cons_append, List.cons_prefix_cons] at h
      rw [List.cons_prefix_cons]
      exact ⟨h.1, ih (fun hm => hc (List.mem_cons_of_mem _ hm)) h.2⟩

theorem infix_append_cons {p : Chars} {c : Char} (hc : c ∉ p) :
    ∀ {x y : Chars}, p <:+: x ++ c :: y → p <:+: x ∨ p <:+: y := by
  intro x
  induction x with
  | nil =>
    intro y h
    rw [List.nil_append, List.infix_cons_iff] at h
    rcases h with h | h
    · cases p with
      | nil => exact Or.inl List.nil_infix
      | cons b p' =>
        rw [List.cons_prefix_cons] at h
        exact absurd (h.1 ▸ List.mem_cons_self b p') hc
    · exact Or.inr h
  | cons a x' ih =>
    intro y h
    rw [List.cons_append, List.infix_cons_iff] at h
    rcases h with h | h
    · have h2 : p <+: (a :: x') ++ c :: y := by rwa [List.cons_append]
      exact Or.inl (prefix_append_cons hc h2).isInfix
    · rcases ih h with h2 | h2
      · exact Or.inl (List.infix_cons h2)
      · exact Or.inr h2

theorem noCSV_append_cons {x y : Chars} {c : Char} (hc : c ∉ csvTok)
    (hx : noCSV x) (hy : noCSV y) : noCSV (x ++ c :: y) := fun h =>
  ((infix_append_cons hc h).elim hx hy)

/-! ### Extension dispatch lemmas -/

theorem endswith_true_iff {s e : Chars} : endswith s e = true ↔ e <:+ s := by
  simp [endswith]

theorem endswith_eq_false {s e : Chars} (h : ¬ e <:+ s) : endswith s e = false := by
  simp [endswith, h]

theorem read_by_ext_supported {df : DataFrame} {file_name : Chars}
    (h : SupportedName file_name) :
    read_by_ext (FileData.table df) file_name = Except.ok df := by
  rcases h with h | h | h | h <;> simp [read_by_ext, readTable, h]

theorem read_by_ext_unsupported (fd : FileData) {file_name : Chars}
    (h : ∀ e ∈ supported_exts, endswith file_name e = false) :
    read_by_ext fd file_name =
      Except.error (PyError.valueError
        (str "File type " ++ file_name ++ str " not supported")) := by
  have h1 := h (str ".csv") (by simp [supported_exts])
  have h2 := h (str ".parquet") (by simp [supported_exts])
  have h3 := h (str ".avro") (by simp [supported_exts])
  have h4 := h (str ".json") (by simp [supported_exts])
  simp [read_by_ext, h1, h2, h3, h4]

/-! ### Formatting loop lemmas -/

theorem format_floats_fst (fmt : Int → Option Chars) (ds : List DType)
    (rows : List (List Cell)) :
    (format_floats fmt ds rows).1 = (format_go fmt ds 0 rows).1 := by
  unfold format_floats
  rcases hg : format_go fmt ds 0 rows with ⟨rows2, failed⟩
  cases failed <;> simp

theorem formatColumn_length {fmt : Int → Option Chars} {i : Nat}
    {rows rows2 : List (List Cell)} (h : formatColumn fmt i rows = some rows2) :
    rows2.length = rows.length :=
  mapOption_length _ h

theorem format_go_length (fmt : Int → Option Chars) :
    ∀ (ds : List DType) (i : Nat) (rows : List (List Cell)),
      ((format_go fmt ds i rows).1).length = rows.length := by
  intro ds
  induction ds with
  | nil => intro i rows; simp [format_go]
  | cons d rest ih =>
    intro i rows
    cases d with
    | float64 =>
      rcases hc : formatColumn fmt i rows with _ | rows2
      · simp [format_go, hc]
      · simp [format_go, hc, ih, formatColumn_length hc]
    | otherDType => simp [format_go, ih]

theorem forall2_mem_right {α β : Type} {R : α → β → Prop} :
    ∀ {l : List α} {l2 : List β}, List.Forall₂ R l l2 →
      ∀ b ∈ l2, ∃ a ∈ l, R a b := by
  intro l
  induction l with
  | nil => intro l2 h b hb; cases h; simp at hb
  | cons x xs ih =>
    intro l2 h b hb
    cases h with
    | cons hx hrest =>
      rcases List.mem_cons.mp hb with rfl | hb2
      · exact ⟨x, List.mem_cons_self _ _, hx⟩
      · rcases ih hrest b hb2 with ⟨a, ha, hR⟩
        exact ⟨a, List.mem_cons_of_mem _ ha, hR⟩

theorem nth_mem {α : Type} : ∀ {l : List α} {i : Nat} {a : α},
    nth l i = some a → a ∈ l := by
  intro l
  induction l with
  | nil => intro i a h; simp [nth] at h
  | cons x xs ih =>
    intro i a h
    cases i with
    | zero =>
      unfold nth at h
      injection h with h
      exact h ▸ List.mem_cons_self _ _
    | succ m => exact List.mem_cons_of_mem _ (ih h)

theorem formatColumn_mem {fmt : Int → Option Chars} {i : Nat}
    {rows rows2 : List (List Cell)} (h : formatColumn fmt i rows = some rows2) :
    ∀ r2 ∈ rows2, ∃ r ∈ rows,
      r2 = r ∨ ∃ c c2, nth r i = some c ∧ fmtCell fmt c = some c2 ∧ r2 = r.set i c2 := by
  intro r2 hr2
  rcases forall2_mem_right (mapOption_forall2 _ h) r2 hr2 with ⟨r, hr, hf⟩
  refine ⟨r, hr, ?_⟩
  rcases hn : nth r i with _ | c
  · rw [hn] at hf
    simp at hf
    exact Or.inl hf.symm
  · rw [hn] at hf
    simp at hf
    rcases hf with ⟨c2, hfc, hset⟩
    exact Or.inr ⟨c, c2, rfl, hfc, hset.symm⟩

theorem fmtCell_not_missing {fmt : Int → Option Chars} {c c2 : Cell}
    (hc : c ≠ Cell.missing) (h : fmtCell fmt c = some c2) : c2 ≠ Cell.missing := by
  cases c with
  | missing => exact absurd rfl hc
  | floatVal x =>
    simp only [fmtCell] at h
    rcases hx : fmt x with _ | s
    · rw [hx] at h; simp at h
    · rw [hx] at h
      simp at h
      subst h
      intro hcon
      cases hcon
  | intVal z =>
    simp only [fmtCell] at h
    injection h with h
    subst h
    intro hcon
    cases hcon
  | strVal s =>
    simp only [fmtCell] at h
    injection h with h
    subst h
    intro hcon
    cases hcon

theorem formatColumn_clean {fmt : Int → Option Chars} {i : Nat}
    {rows rows2 : List (List Cell)} (h : formatColumn fmt i rows = some rows2)
    (hcl : ∀ r ∈ rows, RowClean r) : ∀ r2 ∈ rows2, RowClean r2 := by
  intro r2 hr2
  rcases formatColumn_mem h r2 hr2 with ⟨r, hr, hcase⟩
  rcases hcase with heq | ⟨c, c2, hn, hf, heq⟩
  · exact heq ▸ hcl r hr
  · intro c3 hc3
    rw [heq] at hc3
    rcases mem_of_mem_set hc3 with h1 | heq2
    · exact hcl r hr c3 h1
    · exact heq2 ▸ fmtCell_not_missing (hcl r hr c (nth_mem hn)) hf

theorem format_go_clean (fmt : Int → Option Chars) :
    ∀ (ds : List DType) (i : Nat) (rows : List (List Cell)),
      (∀ r ∈ rows, RowClean r) →
      ∀ r2 ∈ (format_go fmt ds i rows).1, RowClean r2 := by
  intro ds
  induction ds with
  | nil => intro i rows h; simpa [format_go] using h
  | cons d rest ih =>
    intro i rows h
    cases d with
    | float64 =>
      rcases hc : formatColumn fmt i rows with _ | rows2
      · simpa [format_go, hc] using h
      · simpa [format_go, hc] using ih (i + 1) rows2 (formatColumn_clean hc h)
    | otherDType => simpa [format_go] using ih (i + 1) rows h

theorem dropna_clean (rows : List (List Cell)) :
    ∀ r ∈ dropna rows, RowClean r := by
  intro r hr
  rcases List.mem_filter.mp hr with ⟨-, hp⟩
  intro c hc hmiss
  subst hmiss
  have : r.any Cell.isMissing = true := List.any_eq_true.mpr ⟨Cell.missing, hc, rfl⟩
  rw [this] at hp
  simp at hp

theorem dropna_sub (rows : List (List Cell)) : dropna rows ⊆ rows :=
  (List.filter_sublist _).subset

/-! ### check_file_type structural lemmas -/

theorem check_file_type_missing (sampler : Sampler) (fmt : Int → Option Chars)
    (fs : FS) (file_name : Chars) (h : fsLookup fs file_name = none) :
    check_file_type sampler fmt fs file_name =
      (Except.error (PyError.fileNotFoundError
        (str "File " ++ file_name ++ str " not found")), fs, []) := by
  unfold check_file_type
  rw [h]

theorem check_file_type_unsupported (sampler : Sampler) (fmt : Int → Option Chars)
    (fs : FS) (file_name : Chars) (fd : FileData)
    (hl : fsLookup fs file_name = some fd)
    (h : ∀ e ∈ supported_exts, endswith file_name e = false) :
    check_file_type sampler fmt fs file_name =
      (Except.error (PyError.valueError
        (str "File type " ++ file_name ++ str " not supported")), fs, []) := by
  simp only [check_file_type, hl, read_by_ext_unsupported fd h]

theorem check_file_type_ok (sampler : Sampler) (fmt : Int → Option Chars)
    (fs : FS) (file_name : Chars) (df : DataFrame)
    (hlook : fsLookup fs file_name = some (FileData.table df))
    (hsup : SupportedName file_name)
    (hrows : 250 ≤ (dropna df.rows).length) :
    check_file_type sampler fmt fs file_name =
      (Except.ok (),
       fsWrite fs intermediate_path
         (FileData.table (DataFrame.mk df.header df.dtypes
           (sampler 250 (format_go fmt df.dtypes 0 (dropna df.rows)).1))),
       (format_floats fmt df.dtypes (dropna df.rows)).2) := by
  have hlen : 250 ≤ ((format_go fmt df.dtypes 0 (dropna df.rows)).1).length := by
    rw [format_go_length]
    exact hrows
  simp only [check_file_type, hlook, read_by_ext_supported hsup, sample_rows,
    format_floats_fst]
  rw [if_pos hlen]

theorem check_file_type_insufficient (sampler : Sampler) (fmt : Int → Option Chars)
    (fs : FS) (file_name : Chars) (df : DataFrame)
    (hlook : fsLookup fs file_name = some (FileData.table df))
    (hsup : SupportedName file_name)
    (hrows : (dropna df.rows).length < 250) :
    check_file_type sampler fmt fs file_name =
      (Except.error (PyError.valueError
        (str "Cannot take a larger sample than population when replace is False")),
       fs, (format_floats fmt df.dtypes (dropna df.rows)).2) := by
  have hlen : ¬ 250 ≤ ((format_go fmt df.dtypes 0 (dropna df.rows)).1).length := by
    rw [format_go_length]
    omega
  simp only [check_file_type, hlook, read_by_ext_supported hsup, sample_rows,
    format_floats_fst]
  rw [if_neg hlen]

/-! ### Retry loop lemmas -/

theorem try_request_zero (oracle : Nat → Option Chars) (k : Nat) :
    try_request oracle k 0 = (none, 0, []) := rfl

theorem try_request_succ_none (oracle : Nat → Option Chars) (k n : Nat)
    (h : oracle k = none) :
    try_request oracle k (n + 1) =
      ((try_request oracle (k + 1) n).1, (try_request oracle (k + 1) n).2.1 + 1,
        Event.modelCall :: Event.printEv retry_msg :: Event.sleepEv 5
          :: (try_request oracle (k + 1) n).2.2) := by
  conv_lhs => unfold try_request
  rw [h]

theorem try_request_succ_some (oracle : Nat → Option Chars) (k n : Nat) (t : Chars)
    (h : oracle k = some t) :
    try_request oracle k (n + 1) = (some t, 1, [Event.modelCall]) := by
  conv_lhs => unfold try_request
  rw [h]

theorem try_request_all_fail (oracle : Nat → Option Chars)
    (h0 : oracle 0 = none) (h1 : oracle 1 = none) (h2 : oracle 2 = none) :
    try_request oracle 0 3 =
      (none, 3,
       [Event.modelCall, Event.printEv retry_msg, Event.sleepEv 5,
        Event.modelCall, Event.printEv retry_msg, Event.sleepEv 5,
        Event.modelCall, Event.printEv retry_msg, Event.sleepEv 5]) := by
  have e1 : try_request oracle 2 1 = (none, 1, [Event.modelCall,
      Event.printEv retry_msg, Event.sleepEv 5]) := by
    have := try_request_succ_none oracle 2 0 h2
    rw [try_request_zero] at this
    exact this
  have e2 : try_request oracle 1 2 = (none, 2, [Event.modelCall,
      Event.printEv retry_msg, Event.sleepEv 5, Event.modelCall,
      Event.printEv retry_msg, Event.sleepEv 5]) := by
    have := try_request_succ_none oracle 1 1 h1
    rw [e1] at this
    exact this
  have := try_request_succ_none oracle 0 2 h0
  rw [e2] at this
  exact this

theorem try_request_first_some (oracle : Nat → Option Chars) (t : Chars)
    (h0 : oracle 0 = some t) :
    try_request oracle 0 3 = (some t, 1, [Event.modelCall]) :=
  try_request_succ_some oracle 0 2 t h0

theorem try_request_some_oracle (oracle : Nat → Option Chars) :
    ∀ (n k : Nat) (t : Chars) (used : Nat) (evs : List Event),
      try_request oracle k n = (some t, used, evs) → ∃ j, oracle j = some t := by
  intro n
  induction n with
  | zero => intro k t used evs h; rw [try_request_zero] at h; simp at h
  | succ m ih =>
    intro k t used evs h
    rcases ho : oracle k with _ | t2
    · rw [try_request_succ_none oracle k m ho] at h
      rcases hr : try_request oracle (k + 1) m with ⟨r1, r2, r3⟩
      rw [hr] at h
      simp at h
      exact ih (k + 1) t r2 r3 (by rw [hr, h.1])
    · rw [try_request_succ_some oracle k m t2 ho] at h
      simp at h
      exact ⟨k, by rw [ho, h.1]⟩

/-! ### Formatting window lemmas -/

theorem formatColumn_rel {fmt : Int → Option Chars} {i : Nat}
    {rows rows2 : List (List Cell)} (h : formatColumn fmt i rows = some rows2) :
    List.Forall₂ (fun r r2 =>
      nth r2 i = (nth r i).bind (fmtCell fmt) ∧
      ∀ j, j ≠ i → nth r2 j = nth r j) rows rows2 := by
  refine List.Forall₂.imp ?_ (mapOption_forall2 _ h)
  intro r r2 hr
  rcases hn : nth r i with _ | c
  · rw [hn] at hr
    simp at hr
    subst hr
    exact ⟨by rw [hn]; rfl, fun j hj => rfl⟩
  · rw [hn] at hr
    simp at hr
    rcases hr with ⟨c2, hc2, hset⟩
    subst hset
    constructor
    · rw [nth_set_eq, hn]
      simp [hc2]
    · intro j hj
      exact nth_set_ne r i j c2 (fun he => hj he.symm)

theorem windowRel_refl_of_le {fmt : Int → Option Chars} {ds : List DType}
    {i stop : Nat} (h : stop ≤ i) (r : List Cell) : windowRel fmt ds i stop r r := by
  intro j
  rw [if_neg (fun hcon => by
    have h1 := hcon.1
    have h2 := hcon.2.1
    omega)]

theorem windowRel_cons_float {fmt : Int → Option Chars} {rest : List DType}
    {i stop : Nat} {r r2 r3 : List Cell}
    (hstop : i < stop)
    (hA1 : nth r2 i = (nth r i).bind (fmtCell fmt))
    (hA2 : ∀ j, j ≠ i → nth r2 j = nth r j)
    (hB : windowRel fmt rest (i + 1) stop r2 r3) :
    windowRel fmt (DType.float64 :: rest) i stop r r3 := by
  intro j
  have hBj := hB j
  by_cases hji : j = i
  · subst hji
    rw [if_pos ⟨Nat.le_refl j, hstop, by simp [nth]⟩]
    rw [if_neg (fun hcon => by have h1 := hcon.1; omega)] at hBj
    rw [hBj, hA1]
  · have hnth : nth (DType.float64 :: rest) (j - i) = nth rest (j - (i + 1)) ∨ j < i := by
      rcases Nat.lt_or_ge j i with hlt | hge
      · exact Or.inr hlt
      · have hgt : i + 1 ≤ j := by omega
        have he : j - i = (j - (i + 1)) + 1 := by omega
        exact Or.inl (by rw [he]; rfl)
    rcases hnth with hnth | hlt
    · by_cases hcond : i + 1 ≤ j ∧ j < stop ∧ nth rest (j - (i + 1)) = some DType.float64
      · rw [if_pos ⟨by omega, hcond.2.1, by rw [hnth]; exact hcond.2.2⟩]
        rw [if_pos hcond] at hBj
        rw [hBj, hA2 j hji]
      · have hj1 : i + 1 ≤ j ∨ j < i + 1 := by omega
        rcases hj1 with hj1 | hj1
        · rw [if_neg (fun hcon => hcond ⟨hj1, hcon.2.1, by rw [← hnth]; exact hcon.2.2⟩)]
          rw [if_neg (fun hcon => hcond ⟨hcon.1, hcon.2.1, hcon.2.2⟩)] at hBj
          rw [hBj, hA2 j hji]
        · rw [if_neg (fun hcon => by
            have h1 := hcon.1
            omega)]
          rw [if_neg (fun hcon => by
            have h1 := hcon.1
            omega)] at hBj
          rw [hBj, hA2 j hji]
    · rw [if_neg (fun hcon => absurd hcon.1 (by omega))]
      rw [if_neg (fun hcon => absurd hcon.1 (by omega))] at hBj
      rw [hBj, hA2 j hji]

theorem windowRel_cons_other {fmt : Int → Option Chars} {rest : List DType}
    {i stop : Nat} {r r3 : List Cell}
    (hB : windowRel fmt rest (i + 1) stop r r3) :
    windowRel fmt (DType.otherDType :: rest) i stop r r3 := by
  intro j
  have hBj := hB j
  by_cases hji : j = i
  · subst hji
    rw [if_neg (fun hcon => by
      have h1 := hcon.2.2
      simp [nth] at h1)]
    rw [if_neg (fun hcon => by have h1 := hcon.1; omega)] at hBj
    exact hBj
  · rcases Nat.lt_or_ge j i with hlt | hge
    · rw [if_neg (fun hcon => by have h1 := hcon.1; omega)]
      rw [if_neg (fun hcon => by have h1 := hcon.1; omega)] at hBj
      exact hBj
    · have hgt : i + 1 ≤ j := by omega
      have he : j - i = (j - (i + 1)) + 1 := by omega
      have hnth : nth (DType.otherDType :: rest) (j - i) = nth rest (j - (i + 1)) := by
        rw [he]; rfl
      by_cases hcond : j < stop ∧ nth rest (j - (i + 1)) = some DType.float64
      · rw [if_pos ⟨by omega, hcond.1, by rw [hnth]; exact hcond.2⟩]
        rw [if_pos ⟨hgt, hcond.1, hcond.2⟩] at hBj
        exact hBj
      · rw [if_neg (fun hcon => hcond ⟨hcon.2.1, by rw [← hnth]; exact hcon.2.2⟩)]
        rw [if_neg (fun hcon => hcond ⟨hcon.2.1, hcon.2.2⟩)] at hBj
        exact hBj

theorem format_go_none_spec (fmt : Int → Option Chars) :
    ∀ (ds : List DType) (i : Nat) (rows out : List (List Cell)),
      format_go fmt ds i rows = (out, none) →
      List.Forall₂ (windowRel fmt ds i (i + ds.length)) rows out := by
  intro ds
  induction ds with
  | nil =>
    intro i rows out h
    simp [format_go] at h
    subst h
    exact List.forall₂_same.mpr (fun r hr => windowRel_refl_of_le (by simp) r)
  | cons d rest ih =>
    intro i rows out h
    cases d with
    | float64 =>
      simp only [format_go] at h
      rcases hc : formatColumn fmt i rows with _ | rows2 <;> rw [hc] at h
      · simp at h
      · have h1 := formatColumn_rel hc
        have h2 := ih (i + 1) rows2 out h
        have heq : i + 1 + rest.length = i + (DType.float64 :: rest).length := by
          simp
          omega
        rw [heq] at h2
        refine forall2_trans ?_ h1 h2
        intro a b c hA hB
        exact windowRel_cons_float (by simp) hA.1 hA.2 hB
    | otherDType =>
      simp only [format_go] at h
      have h2 := ih (i + 1) rows out h
      have heq : i + 1 + rest.length = i + (DType.otherDType :: rest).length := by
        simp
        omega
      rw [heq] at h2
      exact List.Forall₂.imp (fun a b hB => windowRel_cons_other hB) h2

theorem format_go_some_spec (fmt : Int → Option Chars) :
    ∀ (ds : List DType) (i : Nat) (rows out : List (List Cell)) (fi : Nat),
      format_go fmt ds i rows = (out, some fi) →
      i ≤ fi ∧ nth ds (fi - i) = some DType.float64 ∧
        List.Forall₂ (windowRel fmt ds i fi) rows out := by
  intro ds
  induction ds with
  | nil =>
    intro i rows out fi h
    simp [format_go] at h
  | cons d rest ih =>
    intro i rows out fi h
    cases d with
    | float64 =>
      simp only [format_go] at h
      rcases hc : formatColumn fmt i rows with _ | rows2 <;> rw [hc] at h
      · rw [Prod.mk.injEq] at h
        obtain ⟨rfl, hfi⟩ := h
        injection hfi with hfi
        subst hfi
        refine ⟨Nat.le_refl i, by simp [nth], ?_⟩
        exact List.forall₂_same.mpr
          (fun r hr => windowRel_refl_of_le (Nat.le_refl i) r)
      · obtain ⟨h1le, h1nth, h1rel⟩ := ih (i + 1) rows2 out fi h
        have hA := formatColumn_rel hc
        refine ⟨by omega, ?_, ?_⟩
        · have he : fi - i = (fi - (i + 1)) + 1 := by omega
          rw [he]
          exact h1nth
        · refine forall2_trans ?_ hA h1rel
          intro a b c hA2 hB
          exact windowRel_cons_float (by omega) hA2.1 hA2.2 hB
    | otherDType =>
      simp only [format_go] at h
      obtain ⟨h1le, h1nth, h1rel⟩ := ih (i + 1) rows out fi h
      refine ⟨by omega, ?_, ?_⟩
      · have he : fi - i = (fi - (i + 1)) + 1 := by omega
        rw [he]
        exact h1nth
      · exact List.Forall₂.imp (fun a b hB => windowRel_cons_other hB) h1rel

/-! ### Successful loader runs -/

theorem check_ok_shape (sampler : Sampler) (fmt : Int → Option Chars)
    (fs : FS) (file_name : Chars) (u : Unit) (fs1 : FS) (evs : List Event)
    (h : check_file_type sampler fmt fs file_name = (Except.ok u, fs1, evs)) :
    (∃ fd, fsLookup fs1 intermediate_path = some fd) ∧
      (evs = [] ∨ evs = [Event.printEv (str "Cannot format float values.")]) := by
  rcases hl : fsLookup fs file_name with _ | fd
  · rw [check_file_type_missing sampler fmt fs file_name hl] at h
    simp at h
  · simp only [check_file_type, hl] at h
    rcases hr : read_by_ext fd file_name with e | df <;> rw [hr] at h <;>
      simp only [] at h
    · simp at h
    · rcases hs : sample_rows sampler 250
          (format_floats fmt df.dtypes (dropna df.rows)).1 with e | srows <;>
        rw [hs] at h <;> simp only [] at h
      · simp at h
      · simp only [Prod.mk.injEq] at h
        obtain ⟨-, h2, h3⟩ := h
        constructor
        · refine ⟨FileData.table (DataFrame.mk df.header df.dtypes srows), ?_⟩
          rw [← h2]
          simp [fsWrite, fsLookup]
        · rw [← h3]
          unfold format_floats
          rcases hg : format_go fmt df.dtypes 0 (dropna df.rows) with ⟨rows2, fo⟩
          cases fo
          · simp
          · simp

theorem takeSampler_ok : SamplerOK takeSampler := by
  intro n rows h
  constructor
  · simp [takeSampler]
    omega
  · intro r hr
    exact List.take_subset n rows hr

/-! ### Claim theorems -/

/-- C2 (code_bug evidence): invoked with both flags supplied
(`--file_name data.csv --api_key APIKEY`), the entry point raises
`AttributeError` on the undeclared namespace attribute `google_api_key`
before `data_analyzer` is ever called: no pipeline event is emitted and
the file system is untouched. -/
theorem C2_main_attribute_error :
    main_entry takeSampler fmtW oracleHello false (str "u1") dateW fsW
        (str "data.csv") keyW =
      (Except.error (PyError.attributeError
        (str "Namespace object has no attribute " ++ str "google_api_key")),
       fsW, []) := by
  rfl

/-- C6: the loader raises `FileNotFoundError` when the path does not
exist, raises the unsupported-format `ValueError` when the extension is
not one of the four supported ones, and in the unsupported case the
pipeline fails with that error before any model call is made. -/
theorem C6_loader_errors (sampler : Sampler) (fmt : Int → Option Chars)
    (oracle : Nat → Option Chars) (render_fail : Bool)
    (id4 actual_date : Chars) (fs1 : FS) (name1 : Chars)
    (fs2 : FS) (name2 key : Chars) (fd : FileData)
    (hA : fsLookup fs1 name1 = none)
    (hB : fsLookup fs2 name2 = some fd)
    (hC : ∀ e ∈ supported_exts, endswith name2 e = false) :
    check_file_type sampler fmt fs1 name1 =
        (Except.error (PyError.fileNotFoundError
          (str "File " ++ name1 ++ str " not found")), fs1, [])
      ∧ check_file_type sampler fmt fs2 name2 =
        (Except.error (PyError.valueError
          (str "File type " ++ name2 ++ str " not supported")), fs2, [])
      ∧ (data_analyzer sampler fmt oracle render_fail id4 actual_date
            fs2 name2 key).1 =
          Except.error (PyError.valueError
            (str "File type " ++ name2 ++ str " not supported"))
      ∧ Event.modelCall ∉ (data_analyzer sampler fmt oracle render_fail id4
            actual_date fs2 name2 key).2.2 := by
  have h1 := check_file_type_missing sampler fmt fs1 name1 hA
  have h2 := check_file_type_unsupported sampler fmt fs2 name2 fd hB hC
  refine ⟨h1, h2, ?_, ?_⟩
  · simp only [data_analyzer, h2]
  · simp only [data_analyzer, h2]
    simp

/-- C6 witness: an absent path and an existing `.xlsx` file. -/
theorem C6_loader_errors_witness :
    check_file_type takeSampler fmtW [] (str "data.csv") =
        (Except.error (PyError.fileNotFoundError
          (str "File " ++ str "data.csv" ++ str " not found")), [], [])
      ∧ check_file_type takeSampler fmtW fsXlsx (str "data.xlsx") =
        (Except.error (PyError.valueError
          (str "File type " ++ str "data.xlsx" ++ str " not supported")),
         fsXlsx, [])
      ∧ (data_analyzer takeSampler fmtW oracleHello false (str "u1") dateW
            fsXlsx (str "data.xlsx") keyW).1 =
          Except.error (PyError.valueError
            (str "File type " ++ str "data.xlsx" ++ str " not supported"))
      ∧ Event.modelCall ∉ (data_analyzer takeSampler fmtW oracleHello false
            (str "u1") dateW fsXlsx (str "data.xlsx") keyW).2.2 :=
  C6_loader_errors takeSampler fmtW oracleHello false (str "u1") dateW
    [] (str "data.csv") fsXlsx (str "data.xlsx") keyW (FileData.table dfW)
    rfl rfl (by decide)

/-- C3: for every supported input whose table keeps at least 250 complete
rows after dropping incomplete ones, the loader succeeds and the
intermediate artifact holds exactly 250 rows, the original header, and no
missing value. -/
theorem C3_artifact_250 (sampler : Sampler) (fmt : Int → Option Chars)
    (fs : FS) (file_name : Chars) (df : DataFrame)
    (hS : SamplerOK sampler)
    (hlook : fsLookup fs file_name = some (FileData.table df))
    (hsup : SupportedName file_name)
    (hrows : 250 ≤ (dropna df.rows).length) :
    (check_file_type sampler fmt fs file_name).1 = Except.ok ()
    ∧ ∃ adf : DataFrame,
        fsLookup (check_file_type sampler fmt fs file_name).2.1 intermediate_path
            = some (FileData.table adf)
          ∧ adf.header = df.header
          ∧ adf.rows.length = 250
          ∧ ∀ r ∈ adf.rows, ∀ c ∈ r, c ≠ Cell.missing := by
  have heq := check_file_type_ok sampler fmt fs file_name df hlook hsup hrows
  rw [heq]
  have hlen : 250 ≤ ((format_go fmt df.dtypes 0 (dropna df.rows)).1).length := by
    rw [format_go_length]
    exact hrows
  obtain ⟨hslen, hsmem⟩ := hS 250 _ hlen
  refine ⟨rfl, DataFrame.mk df.header df.dtypes
    (sampler 250 (format_go fmt df.dtypes 0 (dropna df.rows)).1),
    by simp [fsWrite, fsLookup], rfl, hslen, ?_⟩
  intro r hr
  exact format_go_clean fmt df.dtypes 0 (dropna df.rows)
    (dropna_clean df.rows) r (hsmem r hr)

/-- C3 witness: a 250-row csv table. -/
theorem C3_artifact_250_witness :
    (check_file_type takeSampler fmtW fsW (str "data.csv")).1 = Except.ok ()
    ∧ ∃ adf : DataFrame,
        fsLookup (check_file_type takeSampler fmtW fsW
            (str "data.csv")).2.1 intermediate_path
            = some (FileData.table adf)
          ∧ adf.header = dfW.header
          ∧ adf.rows.length = 250
          ∧ ∀ r ∈ adf.rows, ∀ c ∈ r, c ≠ Cell.missing :=
  C3_artifact_250 takeSampler fmtW fsW (str "data.csv") dfW takeSampler_ok
    rfl (Or.inl (by decide)) (by decide)

/-- C10: when fewer than 250 complete rows remain after `dropna`, the
loader raises the sampling `ValueError` before reaching the write: the
file system is returned unchanged, so the intermediate path still maps to
whatever it mapped to before the call. -/
theorem C10_insufficient_rows (sampler : Sampler) (fmt : Int → Option Chars)
    (fs : FS) (file_name : Chars) (df : DataFrame)
    (hlook : fsLookup fs file_name = some (FileData.table df))
    (hsup : SupportedName file_name)
    (hrows : (dropna df.rows).length < 250) :
    check_file_type sampler fmt fs file_name =
        (Except.error (PyError.valueError
          (str "Cannot take a larger sample than population when replace is False")),
         fs, (format_floats fmt df.dtypes (dropna df.rows)).2)
      ∧ fsLookup (check_file_type sampler fmt fs file_name).2.1 intermediate_path
          = fsLookup fs intermediate_path := by
  have heq := check_file_type_insufficient sampler fmt fs file_name df hlook hsup hrows
  exact ⟨heq, by rw [heq]⟩

/-- C10 witness: an empty csv table over a file system already holding an
intermediate artifact, which is left untouched. -/
theorem C10_insufficient_rows_witness :
    check_file_type takeSampler fmtW fsSmall (str "d.csv") =
        (Except.error (PyError.valueError
          (str "Cannot take a larger sample than population when replace is False")),
         fsSmall, (format_floats fmtW dfEmpty.dtypes (dropna dfEmpty.rows)).2)
      ∧ fsLookup (check_file_type takeSampler fmtW fsSmall (str "d.csv")).2.1
          intermediate_path = fsLookup fsSmall intermediate_path :=
  C10_insufficient_rows takeSampler fmtW fsSmall (str "d.csv") dfEmpty
    rfl (Or.inl (by decide)) (by decide)

/-! ### Case sensitivity of the extension dispatch -/

theorem exts_pairwise_suffix :
    ∀ x ∈ supported_exts, ∀ e ∈ supported_exts, x <:+ e → x = e := by
  decide

theorem exts_lower_self : ∀ e ∈ supported_exts, e.map Char.toLower = e := by
  decide

theorem variant_excludes_ext {v name e : Chars}
    (hmap : v.map Char.toLower ∈ supported_exts) (hnot : v ∉ supported_exts)
    (hv : v <:+ name) (he : e ∈ supported_exts) : ¬ e <:+ name := by
  intro hsufe
  rcases List.suffix_or_suffix_of_suffix hv hsufe with hve | hev
  · have hmap2 : v.map Char.toLower <:+ e.map Char.toLower :=
      List.IsSuffix.map Char.toLower hve
    rw [exts_lower_self e he] at hmap2
    have heq := exts_pairwise_suffix (v.map Char.toLower) hmap e he hmap2
    have hlen : v.length = e.length := by
      rw [← heq]
      simp
    exact hnot ((hve.eq_of_length hlen) ▸ he)
  · have hmap2 : e.map Char.toLower <:+ v.map Char.toLower :=
      List.IsSuffix.map Char.toLower hev
    rw [exts_lower_self e he] at hmap2
    have heq := exts_pairwise_suffix e he (v.map Char.toLower) hmap hmap2
    have hlen : e.length = v.length := by
      rw [heq]
      simp
    exact hnot ((hev.eq_of_length hlen) ▸ he)

/-- C9: extension matching is case-sensitive suffix matching: an existing
file whose name ends with a case variant of a supported extension that is
not itself one of the four lowercase extensions is rejected with the
unsupported-format `ValueError`. -/
theorem C9_case_sensitive_ext (sampler : Sampler) (fmt : Int → Option Chars)
    (fs : FS) (name v : Chars) (fd : FileData)
    (hlook : fsLookup fs name = some fd)
    (hmap : v.map Char.toLower ∈ supported_exts)
    (hnot : v ∉ supported_exts)
    (hv : v <:+ name) :
    check_file_type sampler fmt fs name =
      (Except.error (PyError.valueError
        (str "File type " ++ name ++ str " not supported")), fs, []) := by
  apply check_file_type_unsupported sampler fmt fs name fd hlook
  intro e he
  exact endswith_eq_false (variant_excludes_ext hmap hnot hv he)

/-- C9 witness: an existing file named `data.CSV`. -/
theorem C9_case_sensitive_ext_witness :
    check_file_type takeSampler fmtW fsUpper (str "data.CSV") =
      (Except.error (PyError.valueError
        (str "File type " ++ str "data.CSV" ++ str " not supported")),
       fsUpper, []) :=
  C9_case_sensitive_ext takeSampler fmtW fsUpper (str "data.CSV") (str ".CSV")
    (FileData.table dfW) rfl (by decide) (by decide) ⟨ str "data", by decide⟩

/-- C8: the reporter builds one `toc=False` section inside a
`toc_level = 2` document titled `Analysis of {file_name}`, writes it to
`data-analysis-{uuid}.pdf` in the working directory and returns that
name; a raising `pdf.save` propagates out of `generate_pdf` and, through
`data_analyzer`, out of the whole pipeline uncaught. -/
theorem C8_generate_pdf_contract (sampler : Sampler) (fmt : Int → Option Chars)
    (oracle : Nat → Option Chars) (id4 actual_date : Chars)
    (fs fs0 fs1 : FS) (evs0 : List Event) (file_name text_md key t : Chars)
    (evsB : List Event)
    (h0 : check_file_type sampler fmt fs0 file_name = (Except.ok (), fs1, evs0))
    (hE : explain_file oracle actual_date fs1 file_name key = (Except.ok t, evsB)) :
    generate_pdf false id4 fs file_name text_md =
        (Except.ok (pdf_name id4),
         fsWrite fs (pdf_name id4) (FileData.pdfFile
           (PdfDoc.mk 2 [Sect.mk text_md false] (str "Analysis of " ++ file_name))),
         [Event.pdfWrite (pdf_name id4)])
      ∧ generate_pdf true id4 fs file_name text_md =
          (Except.error PyError.renderError, fs, [])
      ∧ (data_analyzer sampler fmt oracle true id4 actual_date fs0
            file_name key).1 = Except.error PyError.renderError := by
  refine ⟨rfl, rfl, ?_⟩
  simp [data_analyzer, h0, hE, generate_pdf]

/-- C8 witness: a successful loader and analyzer run followed by the
reporter, including the raising-save path. -/
theorem C8_generate_pdf_contract_witness :
    generate_pdf false (str "u1") fsW (str "data.csv") (str "hi") =
        (Except.ok (pdf_name (str "u1")),
         fsWrite fsW (pdf_name (str "u1")) (FileData.pdfFile
           (PdfDoc.mk 2 [Sect.mk (str "hi") false]
             (str "Analysis of " ++ str "data.csv"))),
         [Event.pdfWrite (pdf_name (str "u1"))])
      ∧ generate_pdf true (str "u1") fsW (str "data.csv") (str "hi") =
          (Except.error PyError.renderError, fsW, [])
      ∧ (data_analyzer takeSampler fmtW oracleHello true (str "u1") dateW fsW
            (str "data.csv") keyW).1 = Except.error PyError.renderError :=
  C8_generate_pdf_contract takeSampler fmtW oracleHello (str "u1") dateW
    fsW fsW fs1W [] (str "data.csv") (str "hi") keyW
    (okText (explain_file oracleHello dateW fs1W (str "data.csv") keyW))
    ((explain_file oracleHello dateW fs1W (str "data.csv") keyW).2)
    (by decide) rfl

/-- C1: when the model raises on the first three calls, the mandatory
request is attempted exactly 3 times with a 5-second sleep after each
failure, `explain_file` raises the fatal exception, and the pipeline
aborts: `data_analyzer` propagates the error, leaves the file system as
the loader left it, and performs no PDF write. -/
theorem C1_mandatory_retry (sampler : Sampler) (fmt : Int → Option Chars)
    (oracle : Nat → Option Chars) (render_fail : Bool) (id4 actual_date : Chars)
    (fs fs1 : FS) (evs0 : List Event) (file_name key : Chars)
    (h0 : check_file_type sampler fmt fs file_name = (Except.ok (), fs1, evs0))
    (ho0 : oracle 0 = none) (ho1 : oracle 1 = none) (ho2 : oracle 2 = none) :
    explain_file oracle actual_date fs1 file_name key =
        (Except.error (PyError.exceptionErr model_fail_msg),
         [Event.modelCall, Event.printEv retry_msg, Event.sleepEv 5,
          Event.modelCall, Event.printEv retry_msg, Event.sleepEv 5,
          Event.modelCall, Event.printEv retry_msg, Event.sleepEv 5])
      ∧ (data_analyzer sampler fmt oracle render_fail id4 actual_date fs
            file_name key).1 = Except.error (PyError.exceptionErr model_fail_msg)
      ∧ (data_analyzer sampler fmt oracle render_fail id4 actual_date fs
            file_name key).2.1 = fs1
      ∧ List.filter is_pdf_write (data_analyzer sampler fmt oracle render_fail
            id4 actual_date fs file_name key).2.2 = [] := by
  obtain ⟨⟨fd, hfd⟩, hevs0⟩ :=
    check_ok_shape sampler fmt fs file_name () fs1 evs0 h0
  have hexp : explain_file oracle actual_date fs1 file_name key =
      (Except.error (PyError.exceptionErr model_fail_msg),
       [Event.modelCall, Event.printEv retry_msg, Event.sleepEv 5,
        Event.modelCall, Event.printEv retry_msg, Event.sleepEv 5,
        Event.modelCall, Event.printEv retry_msg, Event.sleepEv 5]) := by
    simp only [explain_file, hfd, try_request_all_fail oracle ho0 ho1 ho2]
  refine ⟨hexp, ?_, ?_, ?_⟩ <;>
    rcases hevs0 with h | h <;> subst h <;>
    simp [data_analyzer, h0, hexp, is_pdf_write]

/-- C1 witness: an always-raising model after a successful load. -/
theorem C1_mandatory_retry_witness :
    explain_file oracleFail dateW fs1W (str "data.csv") keyW =
        (Except.error (PyError.exceptionErr model_fail_msg),
         [Event.modelCall, Event.printEv retry_msg, Event.sleepEv 5,
          Event.modelCall, Event.printEv retry_msg, Event.sleepEv 5,
          Event.modelCall, Event.printEv retry_msg, Event.sleepEv 5])
      ∧ (data_analyzer takeSampler fmtW oracleFail false (str "u1") dateW fsW
            (str "data.csv") keyW).1 = Except.error (PyError.exceptionErr model_fail_msg)
      ∧ (data_analyzer takeSampler fmtW oracleFail false (str "u1") dateW fsW
            (str "data.csv") keyW).2.1 = fs1W
      ∧ List.filter is_pdf_write (data_analyzer takeSampler fmtW oracleFail false
            (str "u1") dateW fsW (str "data.csv") keyW).2.2 = [] :=
  C1_mandatory_retry takeSampler fmtW oracleFail false (str "u1") dateW
    fsW fs1W [] (str "data.csv") keyW (by decide) rfl rfl rfl

/-- C4: after the mandatory request succeeds, the two optional requests
are attempted exactly once each (one model call per request, no sleeps);
when both fail, both warnings are printed, the report text is exactly the
header followed by the first response (with `CSV` removed) and nothing
else, and the run still finishes with overall success, writing that text
into the PDF. -/
theorem C4_optional_once (sampler : Sampler) (fmt : Int → Option Chars)
    (oracle : Nat → Option Chars) (id4 actual_date : Chars)
    (fs fs1 : FS) (evs0 : List Event) (file_name key t1 : Chars)
    (h0 : check_file_type sampler fmt fs file_name = (Except.ok (), fs1, evs0))
    (ho0 : oracle 0 = some t1) (ho1 : oracle 1 = none) (ho2 : oracle 2 = none) :
    explain_file oracle actual_date fs1 file_name key =
        (Except.ok (report_header actual_date
            (file_name.takeWhile (fun c => c != '/')) ++ str " " ++ removeCSV t1),
         [Event.modelCall,
          Event.printEv gen_viz_msg, Event.modelCall,
          Event.printEv warn_part_msg, Event.printEv warn_missing_viz,
          Event.printEv gen_opt_msg, Event.modelCall,
          Event.printEv warn_part_msg, Event.printEv warn_missing_opt])
      ∧ (data_analyzer sampler fmt oracle false id4 actual_date fs
            file_name key).1 = Except.ok ()
      ∧ fsLookup (data_analyzer sampler fmt oracle false id4 actual_date fs
            file_name key).2.1 (pdf_name id4)
          = some (FileData.pdfFile (PdfDoc.mk 2
              [Sect.mk (report_header actual_date
                (file_name.takeWhile (fun c => c != '/'))
                ++ str " " ++ removeCSV t1) false]
              (str "Analysis of " ++ file_name))) := by
  obtain ⟨⟨fd, hfd⟩, hevs0⟩ :=
    check_ok_shape sampler fmt fs file_name () fs1 evs0 h0
  have hexp : explain_file oracle actual_date fs1 file_name key =
      (Except.ok (report_header actual_date
          (file_name.takeWhile (fun c => c != '/')) ++ str " " ++ removeCSV t1),
       [Event.modelCall,
        Event.printEv gen_viz_msg, Event.modelCall,
        Event.printEv warn_part_msg, Event.printEv warn_missing_viz,
        Event.printEv gen_opt_msg, Event.modelCall,
        Event.printEv warn_part_msg, Event.printEv warn_missing_opt]) := by
    simp only [explain_file, hfd, try_request_first_some oracle t1 ho0, ho1,
      show oracle (1 + 1) = none from ho2]
    rfl
  refine ⟨hexp, ?_, ?_⟩ <;>
    simp [data_analyzer, h0, hexp, generate_pdf, fsWrite, fsLookup, pdf_name]

/-- C4 witness: first call answers, the two optional calls raise. -/
theorem C4_optional_once_witness :
    explain_file oracleFirstOnly dateW fs1W (str "data.csv") keyW =
        (Except.ok (report_header dateW
            ((str "data.csv").takeWhile (fun c => c != '/'))
            ++ str " " ++ removeCSV (str "hello")),
         [Event.modelCall,
          Event.printEv gen_viz_msg, Event.modelCall,
          Event.printEv warn_part_msg, Event.printEv warn_missing_viz,
          Event.printEv gen_opt_msg, Event.modelCall,
          Event.printEv warn_part_msg, Event.printEv warn_missing_opt])
      ∧ (data_analyzer takeSampler fmtW oracleFirstOnly false (str "u1") dateW
            fsW (str "data.csv") keyW).1 = Except.ok ()
      ∧ fsLookup (data_analyzer takeSampler fmtW oracleFirstOnly false (str "u1")
            dateW fsW (str "data.csv") keyW).2.1 (pdf_name (str "u1"))
          = some (FileData.pdfFile (PdfDoc.mk 2
              [Sect.mk (report_header dateW
                ((str "data.csv").takeWhile (fun c => c != '/'))
                ++ str " " ++ removeCSV (str "hello")) false]
              (str "Analysis of " ++ str "data.csv"))) :=
  C4_optional_once takeSampler fmtW oracleFirstOnly (str "u1") dateW
    fsW fs1W [] (str "data.csv") keyW (str "hello") (by decide) rfl rfl rfl

/-! ### C7: float formatting -/

theorem nth_some_lt {α : Type} : ∀ {l : List α} {j : Nat} {a : α},
    nth l j = some a → j < l.length := by
  intro l
  induction l with
  | nil => intro j a h; simp [nth] at h
  | cons x xs ih =>
    intro j a h
    cases j with
    | zero => simp
    | succ m =>
      have := ih (a := a) h
      simp
      omega

theorem mapOption_total {α β : Type} (f : α → Option β)
    (hf : ∀ a, f a ≠ none) : ∀ l : List α, mapOption f l ≠ none := by
  intro l
  induction l with
  | nil => simp [mapOption]
  | cons a as ih =>
    unfold mapOption
    rcases hfa : f a with _ | b
    · exact absurd hfa (hf a)
    · rcases hrest : mapOption f as with _ | bs
      · exact absurd hrest ih
      · simp

theorem fmtCell_total {fmt : Int → Option Chars}
    (hfmt : ∀ hv : Int, fmt hv ≠ none) (c : Cell) : fmtCell fmt c ≠ none := by
  cases c with
  | floatVal hv =>
    simp only [fmtCell]
    rcases hs : fmt hv with _ | s
    · exact absurd hs (hfmt hv)
    · simp
  | missing => simp [fmtCell]
  | intVal z => simp [fmtCell]
  | strVal s => simp [fmtCell]

theorem formatColumn_total {fmt : Int → Option Chars} {i : Nat}
    (hfmt : ∀ hv : Int, fmt hv ≠ none) (rows : List (List Cell)) :
    formatColumn fmt i rows ≠ none := by
  apply mapOption_total
  intro r
  rcases hn : nth r i with _ | c
  · simp
  · rcases hc : fmtCell fmt c with _ | c2
    · exact absurd hc (fmtCell_total hfmt c)
    · simp [hc]

theorem format_go_total (fmt : Int → Option Chars)
    (hfmt : ∀ hv : Int, fmt hv ≠ none) :
    ∀ (ds : List DType) (i : Nat) (rows : List (List Cell)),
      (format_go fmt ds i rows).2 = none := by
  intro ds
  induction ds with
  | nil => intro i rows; simp [format_go]
  | cons d rest ih =>
    intro i rows
    cases d with
    | float64 =>
      rcases hc : formatColumn fmt i rows with _ | rows2
      · exact absurd hc (formatColumn_total hfmt rows)
      · simp [format_go, hc, ih]
    | otherDType => simp [format_go, ih]

/-- C7 (amended): when the formatter never raises, the loader succeeds
and every cell of every float64 column of the intermediate artifact
carries the formatter's rendering of a float value; when the formatting
loop raises at column `fi`, the failure message is printed and the rows
keep the formatted values of the float columns processed before `fi`
while column `fi` and everything after pass through unchanged
(`windowRel` with window `[0, fi)`); and a raising formatter is never
fatal: the loader still succeeds. -/
theorem C7_float_formatting :
    (∀ (sampler : Sampler) (fmt : Int → Option Chars) (fs : FS)
       (file_name : Chars) (df : DataFrame),
       SamplerOK sampler →
       fsLookup fs file_name = some (FileData.table df) →
       SupportedName file_name →
       250 ≤ (dropna df.rows).length →
       WellTyped df →
       (∀ hv : Int, fmt hv ≠ none) →
       (check_file_type sampler fmt fs file_name).1 = Except.ok ()
       ∧ ∀ adf : DataFrame,
           fsLookup (check_file_type sampler fmt fs file_name).2.1
             intermediate_path = some (FileData.table adf) →
           ∀ r ∈ adf.rows, ∀ j : Nat,
             nth df.dtypes j = some DType.float64 →
             ∃ hv s, fmt hv = some s ∧ nth r j = some (Cell.strVal s))
  ∧ (∀ (fmt : Int → Option Chars) (dtypes : List DType)
       (rows out : List (List Cell)) (fi : Nat),
       format_go fmt dtypes 0 rows = (out, some fi) →
       nth dtypes fi = some DType.float64
       ∧ List.Forall₂ (windowRel fmt dtypes 0 fi) rows out
       ∧ format_floats fmt dtypes rows
           = (out, [Event.printEv (str "Cannot format float values.")]))
  ∧ (∀ (sampler : Sampler) (fmt : Int → Option Chars) (fs : FS)
       (file_name : Chars) (df : DataFrame),
       SamplerOK sampler →
       fsLookup fs file_name = some (FileData.table df) →
       SupportedName file_name →
       250 ≤ (dropna df.rows).length →
       (check_file_type sampler fmt fs file_name).1 = Except.ok ()) := by
  refine ⟨?_, ?_, ?_⟩
  · intro sampler fmt fs file_name df hS hlook hsup hrows hWT hfmt
    have heq := check_file_type_ok sampler fmt fs file_name df hlook hsup hrows
    rw [heq]
    refine ⟨rfl, ?_⟩
    intro adf hadf r hr j hj
    simp only [fsWrite, fsLookup, eq_self_iff_true, if_true, Option.some.injEq,
      FileData.table.injEq] at hadf
    subst hadf
    have hlen : 250 ≤ ((format_go fmt df.dtypes 0 (dropna df.rows)).1).length := by
      rw [format_go_length]
      exact hrows
    obtain ⟨-, hsmem⟩ := hS 250 _ hlen
    have hr2 := hsmem r hr
    rcases hgo : format_go fmt df.dtypes 0 (dropna df.rows) with ⟨out, so⟩
    have hso : so = none := by
      have := format_go_total fmt hfmt df.dtypes 0 (dropna df.rows)
      rw [hgo] at this
      exact this
    subst hso
    have hspec := format_go_none_spec fmt df.dtypes 0 (dropna df.rows) out hgo
    rw [hgo] at hr2
    obtain ⟨rin, hrin, hwin⟩ := forall2_mem_right hspec r hr2
    have hjlt : j < df.dtypes.length := nth_some_lt hj
    have hwj := hwin j
    rw [if_pos ⟨Nat.zero_le j, by omega, by simpa using hj⟩] at hwj
    obtain ⟨-, hWT2⟩ := hWT rin (dropna_sub df.rows hrin)
    rcases hWT2 j hj with hmiss | ⟨hv, hfl⟩
    · exact absurd rfl
        (dropna_clean df.rows rin hrin Cell.missing (nth_mem hmiss))
    · rcases hs : fmt hv with _ | s
      · exact absurd hs (hfmt hv)
      · refine ⟨hv, s, hs, ?_⟩
        rw [hwj, hfl]
        simp [fmtCell, hs]
  · intro fmt dtypes rows out fi h
    obtain ⟨hle, hnth, hrel⟩ := format_go_some_spec fmt dtypes 0 rows out fi h
    refine ⟨by simpa using hnth, hrel, ?_⟩
    unfold format_floats
    rw [h]
  · intro sampler fmt fs file_name df hS hlook hsup hrows
    rw [check_file_type_ok sampler fmt fs file_name df hlook hsup hrows]

/-- C7 witness: the partially-formatted failure clause at the one-row,
two-float-column frame whose second value makes the formatter raise. -/
theorem C7_float_formatting_witness :
    nth dtypesC7 1 = some DType.float64
    ∧ List.Forall₂ (windowRel fmtFail999 dtypesC7 0 1) rowsC7
        (format_go fmtFail999 dtypesC7 0 rowsC7).1
    ∧ format_floats fmtFail999 dtypesC7 rowsC7
        = ((format_go fmtFail999 dtypesC7 0 rowsC7).1,
           [Event.printEv (str "Cannot format float values.")]) :=
  C7_float_formatting.2.1 fmtFail999 dtypesC7 rowsC7
    (format_go fmtFail999 dtypesC7 0 rowsC7).1 1 (by decide)

/-- C7 counterexample: the formatting loop raises on the second float
column; the failure message is printed, yet the rows do not pass through
unchanged — the first column keeps its formatted value. -/
theorem C7_partial_on_failure :
    (format_floats fmtFail999 dtypesC7 rowsC7).2
        = [Event.printEv (str "Cannot format float values.")]
      ∧ (format_floats fmtFail999 dtypesC7 rowsC7).1
        = [[Cell.strVal (str "1.00"), Cell.floatVal 999]]
      ∧ (format_floats fmtFail999 dtypesC7 rowsC7).1 ≠ rowsC7 :=
  ⟨by decide, by decide, by decide⟩

/-! ### C5: removal of the literal token from the report -/

theorem noCSV_append_newline {x z : Chars} (hx : noCSV x) (hz : noCSV z) :
    noCSV (x ++ str "\n" ++ z) := by
  rw [List.append_assoc]
  exact noCSV_append_cons (by decide) hx hz

theorem noCSV_append_space {x y : Chars} (hx : noCSV x) (hy : noCSV y) :
    noCSV (x ++ ([' '] ++ y)) := noCSV_append_cons (by decide) hx hy

theorem report_text_noCSV (date label a : Chars)
    (hd : noCSV date) (hl : noCSV label) (ha : noCSV a) :
    noCSV (report_header date label ++ str " " ++ a) := by
  have h1 : str "<div style=\"text-align: right\"> "
      = str "<div style=\"text-align: right\">" ++ [' '] := by decide
  have h2 : str " </div><br>" = [' '] ++ str "</div><br>" := by decide
  have h3 : str "<div style=\"font-style: italic\"> "
      = str "<div style=\"font-style: italic\">" ++ [' '] := by decide
  have h4 : str " </div>\n\n" = [' '] ++ str "</div>\n\n" := by decide
  have h5 : str " " = ([' '] : Chars) := by decide
  unfold report_header
  rw [h1, h2, h3, h4, h5]
  simp only [List.append_assoc]
  apply noCSV_append_space (by decide)
  apply noCSV_append_space hd
  rw [← List.append_assoc]
  apply noCSV_append_space (by decide)
  apply noCSV_append_space hl
  rw [← List.append_assoc, ← List.append_assoc]
  apply noCSV_append_space (by decide)
  exact ha

/-- C5 (amended): every response undergoes one left-to-right pass of
case-sensitive removal of the literal `CSV` before concatenation; the
pass is not iterated, so the report is `CSV`-free only under the proviso
that no removal re-joins surrounding characters into a fresh occurrence,
and that the timestamp and the file-name label (copied verbatim into the
header) are themselves `CSV`-free. -/
theorem C5_csv_removal (oracle : Nat → Option Chars) (actual_date : Chars)
    (fs : FS) (file_name key : Chars) (t : Chars) (evs : List Event)
    (hrun : explain_file oracle actual_date fs file_name key = (Except.ok t, evs))
    (hdate : noCSV actual_date)
    (hlabel : noCSV (file_name.takeWhile (fun c => c != '/')))
    (hresp : ∀ k s, oracle k = some s → noCSV (removeCSV s)) :
    noCSV t := by
  rcases hfs : fsLookup fs intermediate_path with _ | fd
  · simp only [explain_file, hfs] at hrun
    simp at hrun
  · simp only [explain_file, hfs] at hrun
    rcases htr : try_request oracle 0 3 with ⟨r1, used, evs1⟩
    rw [htr] at hrun
    cases r1 with
    | none => simp at hrun
    | some t1 =>
      simp only [] at hrun
      have ht1 : noCSV (removeCSV t1) := by
        obtain ⟨j, hj⟩ := try_request_some_oracle oracle 3 0 t1 used evs1 htr
        exact hresp j t1 hj
      rcases ho2 : oracle used with _ | t2 <;> rw [ho2] at hrun
      · rcases ho3 : oracle (used + 1) with _ | t3 <;> rw [ho3] at hrun <;>
          simp only [Prod.mk.injEq, Except.ok.injEq] at hrun
        · rw [← hrun.1]
          exact report_text_noCSV actual_date
            (file_name.takeWhile (fun c => c != '/')) (removeCSV t1)
            hdate hlabel ht1
        · rw [← hrun.1]
          exact noCSV_append_newline
            (report_text_noCSV actual_date
              (file_name.takeWhile (fun c => c != '/')) (removeCSV t1)
              hdate hlabel ht1)
            (hresp _ t3 ho3)
      · rcases ho3 : oracle (used + 1) with _ | t3 <;> rw [ho3] at hrun <;>
          simp only [Prod.mk.injEq, Except.ok.injEq] at hrun
        · rw [← hrun.1]
          exact noCSV_append_newline
            (report_text_noCSV actual_date
              (file_name.takeWhile (fun c => c != '/')) (removeCSV t1)
              hdate hlabel ht1)
            (hresp _ t2 ho2)
        · rw [← hrun.1]
          exact noCSV_append_newline
            (noCSV_append_newline
              (report_text_noCSV actual_date
                (file_name.takeWhile (fun c => c != '/')) (removeCSV t1)
                hdate hlabel ht1)
              (hresp _ t2 ho2))
            (hresp _ t3 ho3)

/-- C5 counterexample: the mandatory response `CCSVSV` has its single
`CSV` occurrence removed, but the deletion re-joins the remaining
characters into `CSV`, which therefore appears in the assembled report
text. -/
theorem C5_token_reappears :
    csvTok <:+: okText (explain_file oracleCex dateW fsArt
      (str "data.csv") keyW) := by
  decide

/-- C5 witness: with responses whose one-pass removal results are
`CSV`-free and a `CSV`-free timestamp and label, the report is
`CSV`-free. -/
theorem C5_csv_removal_witness :
    noCSV (okText (explain_file oracleHello dateW fsArt (str "data.csv") keyW)) := by
  have hrun : explain_file oracleHello dateW fsArt (str "data.csv") keyW =
      (Except.ok (okText (explain_file oracleHello dateW fsArt
        (str "data.csv") keyW)),
       (explain_file oracleHello dateW fsArt (str "data.csv") keyW).2) := rfl
  exact C5_csv_removal oracleHello dateW fsArt (str "data.csv") keyW _ _ hrun
    (by decide) (by decide)
    (fun k s h => by
      have h2 : str "hello" = s := Option.some.inj h
      rw [← h2]
      decide)
